import Mathlib

/-!
# Shallow embedding of the BardSpeak scoring / streak / eligibility engine

This file embeds the decision logic of `src/app.py` (a Flask application):
the per-module scoring formulas (oracle path and fallback path), the
completion ledger with its duplicate check, the daily-streak tracker, and
the certificate-eligibility predicate, together with the six submission
entry points `submit_speaking`, `submit_speaking_audio`, `submit_listening`,
`submit_writing`, `submit_observation` and `submit_quote`.

Conventions of the embedding:
* Python text is modelled as `List Char`; `str.lower()`, `str.split()`,
  `str.strip()`, substring containment (`a in b`) and `set(...)` are given
  structurally recursive counterparts below.
* Python float arithmetic on scores is modelled exactly over `ℚ`
  (all quantities involved are ratios of small integers); `int(x)` on the
  nonnegative scores is `⌊x⌋`.
* The sentiment oracle (`analyze_sentiment`) is modelled as an
  `Option Nat`: `some r` means the call returned a result with
  `.rating = r`; `none` means it raised, which the source catches with
  `except Exception`, routing control to the fallback branch.
* Database rows are records; tables keyed by id are functions; the
  completion ledger is a list that the operations only ever extend.
* Each submission operation returns the successor state together with an
  `Except` value; every error path of the source returns before any
  database mutation, which the embedding renders by returning the input
  state unchanged next to the error.
-/

set_option maxRecDepth 100000

/-- Python text, as a list of characters. -/
abbrev PyStr := List Char

/-- Python `str.lower()`. -/
def pyLower (s : PyStr) : PyStr := s.map Char.toLower

/-- Helper for `pySplit`: walks the text accumulating the current word. -/
def pySplitAux : PyStr → PyStr → List PyStr
  | [], [] => []
  | [], acc => [acc.reverse]
  | c :: rest, acc =>
    if c.isWhitespace then
      (if acc.isEmpty then pySplitAux rest [] else acc.reverse :: pySplitAux rest [])
    else pySplitAux rest (c :: acc)

/-- Python `str.split()` with no argument: split on runs of whitespace,
producing no empty tokens. -/
def pySplit (s : PyStr) : List PyStr := pySplitAux s []

/-- Python `str.strip()`: drop leading and trailing whitespace. -/
def pyStrip (s : PyStr) : PyStr :=
  ((s.dropWhile Char.isWhitespace).reverse.dropWhile Char.isWhitespace).reverse

/-- Python `needle in hay` on strings: contiguous-substring test. -/
def containsChars (needle : PyStr) : PyStr → Bool
  | [] => needle.isEmpty
  | c :: rest => needle.isPrefixOf (c :: rest) || containsChars needle rest

/-- Python `set(xs)` over a word list.  Only the size and the membership of
the result are ever used, so an order-preserving dedup is an exact model. -/
def pySet (l : List PyStr) : List PyStr := l.dedup

/-- Composition `text.lower().split()`, the tokenisation used throughout `app.py`. -/
def lowerWords (s : String) : List PyStr := pySplit (pyLower s.toList)

/-- Composition `text.lower().strip()`, used by the listening module. -/
def lowerStrip (s : String) : PyStr := pyStrip (pyLower s.toList)

/-! ## Scoring engine (src/app.py, inlined in each submit handler) -/

/-- Try-branch of `submit_speaking` / `submit_speaking_audio`
(src/app.py lines 417-431 and 564-575): word-set similarity blended with the
oracle rating.  Returns `(final_score, points_earned, similarity)`. -/
def speakingOracleScore (content recorded_text : String) (rating : Nat) :
    Int × Nat × ℚ :=
  let original_words := pySet (lowerWords content)
  let user_words := pySet (lowerWords recorded_text)
  let similarity : ℚ :=
    ((original_words.filter (fun w => user_words.contains w)).length : ℚ)
      / (max original_words.length 1 : ℚ) * 100
  let points_earned : Nat :=
    if 80 ≤ similarity ∧ 4 ≤ rating then 15
    else if 60 ≤ similarity ∨ 3 ≤ rating then 12
    else 10
  let final_score : Int := ⌊min 100 (similarity + (rating : ℚ) * 10)⌋
  (final_score, points_earned, similarity)

/-- Except-branch of `submit_speaking` / `submit_speaking_audio`
(src/app.py lines 432-440 and 576-582): count of submission word tokens
found in the reference token list, over the reference token count.
Returns `(final_score, points_earned, similarity)`. -/
def speakingFallbackScore (content recorded_text : String) : Int × Nat × ℚ :=
  let original_words := lowerWords content
  let user_words := lowerWords recorded_text
  let matching_words := (user_words.filter (fun w => original_words.contains w)).length
  let similarity : ℚ :=
    if original_words.isEmpty then 0
    else ((matching_words : ℚ) / (original_words.length : ℚ)) * 100
  let points_earned : Nat := if 70 ≤ similarity then 10 else 8
  (⌊similarity⌋, points_earned, similarity)

/-- Speaking scoring: the oracle result if the analyzer returned one,
otherwise the fallback (the `try`/`except` of src/app.py lines 417-440). -/
def speakingScore (content recorded_text : String) :
    Option Nat → Int × Nat × ℚ
  | some rating => speakingOracleScore content recorded_text rating
  | none => speakingFallbackScore content recorded_text

/-- Try-branch of `submit_writing` (src/app.py lines 685-698).
Returns `(final_score, points_earned)`; the handler stores `int(final_score)`. -/
def writingOracleScore (user_response : String) (rating : Nat) : ℚ × Nat :=
  let word_count := (pySplit user_response.toList).length
  let depth_score : ℚ := min 100 ((word_count : ℚ) * 1.5)
  let quality_score : ℚ := (rating : ℚ) * 20
  let final_score : ℚ := (depth_score + quality_score) / 2
  let points_earned : Nat :=
    if 100 ≤ word_count ∧ 4 ≤ rating then 15
    else if 75 ≤ word_count ∨ 3 ≤ rating then 12
    else 10
  (final_score, points_earned)

/-- Except-branch of `submit_writing` (src/app.py lines 699-703). -/
def writingFallbackScore (user_response : String) : ℚ × Nat :=
  let word_count := (pySplit user_response.toList).length
  (min 100 ((word_count : ℚ) * 2), if 50 ≤ word_count then 10 else 8)

/-- Writing scoring with the oracle `try`/`except` collapsed. -/
def writingScore (user_response : String) : Option Nat → ℚ × Nat
  | some rating => writingOracleScore user_response rating
  | none => writingFallbackScore user_response

/-- Try-branch of `submit_listening` (src/app.py lines 761-772).
Returns `(accuracy, points_earned)`; the handler stores `int(accuracy)`. -/
def listeningOracleScore (transcript user_input : String) (rating : Nat) :
    ℚ × Nat :=
  let original_text := lowerStrip transcript
  let user_text := lowerStrip user_input
  let original_words := pySet (pySplit original_text)
  let user_words := pySet (pySplit user_text)
  let word_accuracy : ℚ :=
    ((original_words.filter (fun w => user_words.contains w)).length : ℚ)
      / (max original_words.length 1 : ℚ) * 100
  let accuracy : ℚ := min 100 ((word_accuracy + (rating : ℚ) * 15) / 2)
  (accuracy, if 80 ≤ accuracy then 10 else 8)

/-- Except-branch of `submit_listening` (src/app.py lines 773-779):
exact match → 100, transcript contained in the submission → 80,
non-empty submission → 60, empty → 0. -/
def listeningFallbackScore (transcript user_input : String) : ℚ × Nat :=
  let original_text := lowerStrip transcript
  let user_text := lowerStrip user_input
  let accuracy : ℚ :=
    if original_text = user_text then 100
    else if 0 < user_text.length ∧ containsChars original_text user_text then 80
    else if 0 < user_text.length then 60
    else 0
  (accuracy, if 80 ≤ accuracy then 10 else 8)

/-- Listening scoring with the oracle `try`/`except` collapsed. -/
def listeningScore (transcript user_input : String) : Option Nat → ℚ × Nat
  | some rating => listeningOracleScore transcript user_input rating
  | none => listeningFallbackScore transcript user_input

/-- Try-branch of `submit_observation` (src/app.py lines 844-853). -/
def observationOracleScore (correct_answers user_answer : String) (rating : Nat) :
    ℚ × Nat :=
  let ca := pyLower correct_answers.toList
  let ua := pyLower user_answer.toList
  let base_accuracy : ℚ := if containsChars ca ua then 100 else 70
  let accuracy : ℚ := min 100 (base_accuracy + (rating : ℚ) * 5)
  (accuracy, if 90 ≤ accuracy then 10 else 8)

/-- Except-branch of `submit_observation` (src/app.py lines 854-858). -/
def observationFallbackScore (correct_answers user_answer : String) : ℚ × Nat :=
  let ca := pyLower correct_answers.toList
  let ua := pyLower user_answer.toList
  let accuracy : ℚ := if containsChars ca ua then 100 else 70
  (accuracy, if accuracy = 100 then 10 else 8)

/-- Observation scoring with the oracle `try`/`except` collapsed. -/
def observationScore (correct_answers user_answer : String) :
    Option Nat → ℚ × Nat
  | some rating => observationOracleScore correct_answers user_answer rating
  | none => observationFallbackScore correct_answers user_answer

/-! ## Data model (src/app.py models and per-user counters) -/

/-- The mutable per-user counters of the `users` table. -/
structure UserRec where
  total_points : Nat
  current_streak : Nat
  best_streak : Nat
deriving DecidableEq

/-- One row of `user_completions` (the completion ledger). -/
structure CompletionRec where
  user_id : Nat
  module_type : String
  content_id : Nat
  score : Int
  points_earned : Nat
deriving DecidableEq

/-- The mutable payload of a `user_streaks` row; the row is keyed by
`(user_id, streak_date)` in `St.streaks`. -/
structure StreakCell where
  modules_completed : Nat
  points_earned : Nat
deriving DecidableEq

/-- One row of `daily_quotes` (the fields the submit handlers read). -/
structure QuoteRec where
  quote_id : Nat
  posted_by : Nat
  post_date : Int
  is_featured : Bool
deriving DecidableEq

/-- Immutable content catalogs and user departments: `Biography.content`,
`ListeningContent.transcript` and `ObservationContent.correct_answers` by
id, and `User.department` by user id (`session['department']`). -/
structure Env where
  bios : Nat → Option String
  transcripts : Nat → Option String
  answers : Nat → Option String
  dept : Nat → String

/-- The mutable store: user counters, the completion ledger, the
daily-streak rows keyed by `(user, date)` (dates are day numbers, so
`yesterday = today - 1`), and the posted quotes. -/
structure St where
  users : Nat → UserRec
  completions : List CompletionRec
  streaks : Nat → Int → Option StreakCell
  quotes : List QuoteRec

/-- Error outcomes of the submission handlers (each is reported to the
caller before any of the in-scope mutations happen). -/
inductive SubmitErr
  | duplicate
  | notFound
  | alreadyPostedToday
deriving DecidableEq

deriving instance DecidableEq for Except

/-- Write one user's counters (`User.query.get` + field assignment). -/
def setUser (st : St) (uid : Nat) (u : UserRec) : St :=
  { st with users := fun v => if v = uid then u else st.users v }

/-- Write one `(user, date)` streak row. -/
def setStreakCell (st : St) (uid : Nat) (d : Int) (cell : StreakCell) : St :=
  { st with streaks := fun v e => if v = uid ∧ e = d then some cell else st.streaks v e }

/-- Append a row to the completion ledger (`db.session.add(completion)`). -/
def addCompletion (st : St) (r : CompletionRec) : St :=
  { st with completions := r :: st.completions }

/-- Assignment `user.total_points = (user.total_points or 0) + points_earned`. -/
def addPoints (st : St) (uid : Nat) (pts : Nat) : St :=
  setUser st uid
    { st.users uid with total_points := (st.users uid).total_points + pts }

/-- The duplicate check run at the top of every graded submit handler:
`UserCompletion.query.filter_by(user_id=…, module_type=…, content_id=…)`. -/
def hasCompletion (st : St) (uid : Nat) (m : String) (c : Nat) : Bool :=
  st.completions.any
    (fun r => r.user_id == uid && r.module_type == m && r.content_id == c)

/-- Streak update of `submit_speaking` (src/app.py lines 457-478): on the
first activity of the day the new `current_streak` depends on whether a
streak row exists for yesterday; afterwards
`best_streak = max(best_streak, current_streak)`. -/
def updateStreakChecked (st : St) (uid : Nat) (today : Int) (pts : Nat) : St :=
  match st.streaks uid today with
  | none =>
    let user := st.users uid
    let user1 :=
      { user with current_streak :=
          if (st.streaks uid (today - 1)).isSome then user.current_streak + 1
          else 1 }
    let user2 := { user1 with best_streak := max user1.best_streak user1.current_streak }
    setStreakCell (setUser st uid user2) uid today ⟨1, pts⟩
  | some cell =>
    let user := st.users uid
    let user2 := { user with best_streak := max user.best_streak user.current_streak }
    setStreakCell (setUser st uid user2) uid today
      ⟨cell.modules_completed + 1, cell.points_earned + pts⟩

/-- Streak update of `submit_speaking_audio`, `submit_listening` and
`submit_observation` (src/app.py lines 593-604, 787-798, 867-878): like
`updateStreakChecked` but the first activity of the day increments
`current_streak` unconditionally, without looking at yesterday. -/
def updateStreakUncond (st : St) (uid : Nat) (today : Int) (pts : Nat) : St :=
  match st.streaks uid today with
  | none =>
    let user := st.users uid
    let user1 := { user with current_streak := user.current_streak + 1 }
    let user2 := { user1 with best_streak := max user1.best_streak user1.current_streak }
    setStreakCell (setUser st uid user2) uid today ⟨1, pts⟩
  | some cell =>
    let user := st.users uid
    let user2 := { user with best_streak := max user.best_streak user.current_streak }
    setStreakCell (setUser st uid user2) uid today
      ⟨cell.modules_completed + 1, cell.points_earned + pts⟩

/-- Predicate `is_certificate_ready` (src/app.py lines 265-274): at least one
completion of the user in each of the four module kinds. -/
def is_certificate_ready (st : St) (uid : Nat) : Bool :=
  let required := ["speaking", "listening", "writing", "observation"]
  let haveKinds := required.filter (fun m =>
    0 < (st.completions.filter
      (fun r => r.user_id == uid && r.module_type == m)).length)
  required.all (fun m => haveKinds.contains m)

/-! ## Submission entry points -/

/-- Handler of route /submit_speaking (src/app.py lines 399-488). -/
def submitSpeaking (env : Env) (st : St) (uid : Nat) (today : Int)
    (bio_id : Nat) (recorded_text : String) (oracle : Option Nat) :
    St × Except SubmitErr (Int × Nat) :=
  if hasCompletion st uid "speaking" bio_id then (st, .error .duplicate)
  else
    match env.bios bio_id with
    | none => (st, .error .notFound)
    | some content =>
      let sres := speakingScore content recorded_text oracle
      let st1 := addCompletion st ⟨uid, "speaking", bio_id, sres.1, sres.2.1⟩
      let st2 := addPoints st1 uid sres.2.1
      let st3 := updateStreakChecked st2 uid today sres.2.1
      (st3, .ok (sres.1, sres.2.1))

/-- Handler of route /submit_speaking_audio from the post-transcription duplicate check on
(src/app.py lines 556-612); the attempt counter, audio processing and
transcription of lines 501-553 precede this logic and return to the caller
on failure without reaching it, so `recorded_text` is the transcription
result.  Unlike `submit_speaking` it updates the streak unconditionally. -/
def submitSpeakingAudio (env : Env) (st : St) (uid : Nat) (today : Int)
    (bio_id : Nat) (recorded_text : String) (oracle : Option Nat) :
    St × Except SubmitErr (Int × Nat) :=
  if hasCompletion st uid "speaking" bio_id then (st, .error .duplicate)
  else
    match env.bios bio_id with
    | none => (st, .error .notFound)
    | some content =>
      let sres := speakingScore content recorded_text oracle
      let st1 := addCompletion st ⟨uid, "speaking", bio_id, sres.1, sres.2.1⟩
      let st2 := addPoints st1 uid sres.2.1
      let st3 := updateStreakUncond st2 uid today sres.2.1
      (st3, .ok (sres.1, sres.2.1))

/-- Handler of route /submit_listening (src/app.py lines 743-802). -/
def submitListening (env : Env) (st : St) (uid : Nat) (today : Int)
    (content_id : Nat) (user_input : String) (oracle : Option Nat) :
    St × Except SubmitErr (Int × Nat) :=
  if hasCompletion st uid "listening" content_id then (st, .error .duplicate)
  else
    match env.transcripts content_id with
    | none => (st, .error .notFound)
    | some transcript =>
      let sres := listeningScore transcript user_input oracle
      let st1 := addCompletion st ⟨uid, "listening", content_id, ⌊sres.1⌋, sres.2⟩
      let st2 := addPoints st1 uid sres.2
      let st3 := updateStreakUncond st2 uid today sres.2
      (st3, .ok (⌊sres.1⌋, sres.2))

/-- Handler of route /submit_observation (src/app.py lines 827-882). -/
def submitObservation (env : Env) (st : St) (uid : Nat) (today : Int)
    (content_id : Nat) (user_answer : String) (oracle : Option Nat) :
    St × Except SubmitErr (Int × Nat) :=
  if hasCompletion st uid "observation" content_id then (st, .error .duplicate)
  else
    match env.answers content_id with
    | none => (st, .error .notFound)
    | some correct_answers =>
      let sres := observationScore correct_answers user_answer oracle
      let st1 := addCompletion st ⟨uid, "observation", content_id, ⌊sres.1⌋, sres.2⟩
      let st2 := addPoints st1 uid sres.2
      let st3 := updateStreakUncond st2 uid today sres.2
      (st3, .ok (⌊sres.1⌋, sres.2))

/-- Handler of route /submit_writing (src/app.py lines 667-714).  Note: it performs no
streak update. -/
def submitWriting (st : St) (uid : Nat) (quote_id : Nat)
    (user_response : String) (oracle : Option Nat) :
    St × Except SubmitErr (Int × Nat) :=
  if hasCompletion st uid "writing" quote_id then (st, .error .duplicate)
  else if ¬ st.quotes.any (fun q => q.quote_id == quote_id) then
    (st, .error .notFound)
  else
    let sres := writingScore user_response oracle
    let st1 := addCompletion st ⟨uid, "writing", quote_id, ⌊sres.1⌋, sres.2⟩
    let st2 := addPoints st1 uid sres.2
    (st2, .ok (⌊sres.1⌋, sres.2))

/-- Handler of route /submit_quote (src/app.py lines 630-665): posting the daily quote.
It records a `writing` completion with `content_id = 0` and `score = 100`,
awards 15 points when the poster is the first of their department today and
10 otherwise, and performs no streak update.  `new_quote_id` models the
fresh primary key of the inserted `DailyQuote` row. -/
def submitQuote (env : Env) (st : St) (uid : Nat) (today : Int)
    (new_quote_id : Nat) : St × Except SubmitErr Nat :=
  if st.quotes.any (fun q => q.posted_by == uid && q.post_date == today) then
    (st, .error .alreadyPostedToday)
  else
    let dept_quotes_today_count := (st.quotes.filter
      (fun q => env.dept q.posted_by == env.dept uid && q.post_date == today)).length
    let is_first := dept_quotes_today_count == 0
    let points_earned : Nat := if is_first then 15 else 10
    let st1 := { st with quotes := ⟨new_quote_id, uid, today, is_first⟩ :: st.quotes }
    let st2 := addCompletion st1 ⟨uid, "writing", 0, 100, points_earned⟩
    let st3 := addPoints st2 uid points_earned
    (st3, .ok points_earned)

/-! ## Shared lemmas about the state operations -/

theorem setUser_users_self (st : St) (uid : Nat) (u : UserRec) :
    (setUser st uid u).users uid = u := by
  simp [setUser]

theorem setUser_users_of_ne (st : St) (uid v : Nat) (u : UserRec) (h : v ≠ uid) :
    (setUser st uid u).users v = st.users v := by
  simp [setUser, h]

theorem addCompletion_completions (st : St) (r : CompletionRec) :
    (addCompletion st r).completions = r :: st.completions := rfl

theorem addPoints_completions (st : St) (uid pts : Nat) :
    (addPoints st uid pts).completions = st.completions := rfl

theorem addPoints_streaks (st : St) (uid pts : Nat) :
    (addPoints st uid pts).streaks = st.streaks := rfl

theorem addPoints_quotes (st : St) (uid pts : Nat) :
    (addPoints st uid pts).quotes = st.quotes := rfl

theorem addPoints_total_self (st : St) (uid pts : Nat) :
    ((addPoints st uid pts).users uid).total_points
      = (st.users uid).total_points + pts := by
  simp [addPoints, setUser]

theorem addPoints_current (st : St) (uid pts v : Nat) :
    ((addPoints st uid pts).users v).current_streak
      = (st.users v).current_streak := by
  by_cases h : v = uid <;> simp [addPoints, setUser, h]

theorem addPoints_best (st : St) (uid pts v : Nat) :
    ((addPoints st uid pts).users v).best_streak = (st.users v).best_streak := by
  by_cases h : v = uid <;> simp [addPoints, setUser, h]

theorem addCompletion_users (st : St) (r : CompletionRec) :
    (addCompletion st r).users = st.users := rfl

theorem addCompletion_streaks (st : St) (r : CompletionRec) :
    (addCompletion st r).streaks = st.streaks := rfl

theorem updateStreakChecked_completions (st : St) (uid : Nat) (today : Int) (pts : Nat) :
    (updateStreakChecked st uid today pts).completions = st.completions := by
  unfold updateStreakChecked
  cases st.streaks uid today <;> rfl

theorem updateStreakUncond_completions (st : St) (uid : Nat) (today : Int) (pts : Nat) :
    (updateStreakUncond st uid today pts).completions = st.completions := by
  unfold updateStreakUncond
  cases st.streaks uid today <;> rfl

theorem updateStreakChecked_streaks_isSome (st : St) (uid : Nat) (today : Int) (pts : Nat) :
    ((updateStreakChecked st uid today pts).streaks uid today).isSome = true := by
  unfold updateStreakChecked
  cases st.streaks uid today <;> simp [setStreakCell, setUser]

theorem updateStreakUncond_streaks_isSome (st : St) (uid : Nat) (today : Int) (pts : Nat) :
    ((updateStreakUncond st uid today pts).streaks uid today).isSome = true := by
  unfold updateStreakUncond
  cases st.streaks uid today <;> simp [setStreakCell, setUser]

theorem updateStreakChecked_total (st : St) (uid : Nat) (today : Int) (pts : Nat) (v : Nat) :
    ((updateStreakChecked st uid today pts).users v).total_points
      = (st.users v).total_points := by
  unfold updateStreakChecked
  cases st.streaks uid today <;> by_cases h : v = uid <;>
    simp [setStreakCell, setUser, h]

theorem updateStreakUncond_total (st : St) (uid : Nat) (today : Int) (pts : Nat) (v : Nat) :
    ((updateStreakUncond st uid today pts).users v).total_points
      = (st.users v).total_points := by
  unfold updateStreakUncond
  cases st.streaks uid today <;> by_cases h : v = uid <;>
    simp [setStreakCell, setUser, h]

theorem updateStreakChecked_best_eq (st : St) (uid : Nat) (today : Int) (pts : Nat) :
    ((updateStreakChecked st uid today pts).users uid).best_streak
      = max (st.users uid).best_streak
          ((updateStreakChecked st uid today pts).users uid).current_streak := by
  unfold updateStreakChecked
  cases st.streaks uid today <;> simp [setStreakCell, setUser]

theorem updateStreakUncond_best_eq (st : St) (uid : Nat) (today : Int) (pts : Nat) :
    ((updateStreakUncond st uid today pts).users uid).best_streak
      = max (st.users uid).best_streak
          ((updateStreakUncond st uid today pts).users uid).current_streak := by
  unfold updateStreakUncond
  cases st.streaks uid today <;> simp [setStreakCell, setUser]

theorem updateStreakChecked_best_le (st : St) (uid : Nat) (today : Int) (pts : Nat) (v : Nat) :
    (st.users v).best_streak
      ≤ ((updateStreakChecked st uid today pts).users v).best_streak := by
  unfold updateStreakChecked
  cases st.streaks uid today <;> by_cases h : v = uid <;>
    simp [setStreakCell, setUser, h, le_max_iff]

theorem updateStreakUncond_best_le (st : St) (uid : Nat) (today : Int) (pts : Nat) (v : Nat) :
    (st.users v).best_streak
      ≤ ((updateStreakUncond st uid today pts).users v).best_streak := by
  unfold updateStreakUncond
  cases st.streaks uid today <;> by_cases h : v = uid <;>
    simp [setStreakCell, setUser, h, le_max_iff]

theorem lengthFilterPos {α : Type} (l : List α) (p : α → Bool) :
    (0 < (l.filter p).length) ↔ ∃ a ∈ l, p a = true := by
  simp [List.length_pos, List.filter_eq_nil_iff]

theorem certReady_iff (st : St) (uid : Nat) :
    is_certificate_ready st uid = true ↔
      ∀ m ∈ (["speaking", "listening", "writing", "observation"] : List String),
        ∃ r ∈ st.completions, r.user_id = uid ∧ r.module_type = m := by
  unfold is_certificate_ready
  simp only [List.all_eq_true, List.elem_iff, List.mem_filter,
    decide_eq_true_eq, lengthFilterPos, Bool.and_eq_true, beq_iff_eq]
  constructor
  · exact fun h m hm => (h m hm).2
  · exact fun h m hm => ⟨hm, h m hm⟩

theorem bestAfterPipelineChecked (st : St) (uid : Nat) (today : Int)
    (r : CompletionRec) (pts : Nat) (v : Nat) :
    (st.users v).best_streak
      ≤ ((updateStreakChecked (addPoints (addCompletion st r) uid pts)
            uid today pts).users v).best_streak := by
  have h1 : ((addPoints (addCompletion st r) uid pts).users v).best_streak
      = (st.users v).best_streak := by
    rw [addPoints_best]
    rfl
  rw [← h1]
  exact updateStreakChecked_best_le _ _ _ _ _

theorem bestAfterPipelineUncond (st : St) (uid : Nat) (today : Int)
    (r : CompletionRec) (pts : Nat) (v : Nat) :
    (st.users v).best_streak
      ≤ ((updateStreakUncond (addPoints (addCompletion st r) uid pts)
            uid today pts).users v).best_streak := by
  have h1 : ((addPoints (addCompletion st r) uid pts).users v).best_streak
      = (st.users v).best_streak := by
    rw [addPoints_best]
    rfl
  rw [← h1]
  exact updateStreakUncond_best_le _ _ _ _ _

/-- C2: a failure of the sentiment/quality oracle (modelled by `none`, the
image of the source's `except Exception` handlers) never escapes the
scoring computation: every module's scoring function is total on the
oracle-failure branch and returns exactly the deterministic fallback
formula; the speaking fallback similarity is a well-defined nonnegative
rational even when the reference is empty (the guarded division), its
points are always 8 or 10, and an empty reference yields `(0, 8, 0)`. -/
theorem claim2_oracle_failure_fallback :
    (∀ content recorded_text : String,
      speakingScore content recorded_text none
        = speakingFallbackScore content recorded_text) ∧
    (∀ transcript user_input : String,
      listeningScore transcript user_input none
        = listeningFallbackScore transcript user_input) ∧
    (∀ correct_answers user_answer : String,
      observationScore correct_answers user_answer none
        = observationFallbackScore correct_answers user_answer) ∧
    (∀ user_response : String,
      writingScore user_response none = writingFallbackScore user_response) ∧
    (∀ content recorded_text : String,
      0 ≤ (speakingFallbackScore content recorded_text).2.2 ∧
        ((speakingFallbackScore content recorded_text).2.1 = 8 ∨
          (speakingFallbackScore content recorded_text).2.1 = 10)) ∧
    (∀ recorded_text : String,
      speakingFallbackScore "" recorded_text = (0, 8, 0)) := by
  refine ⟨fun _ _ => rfl, fun _ _ => rfl, fun _ _ => rfl, fun _ => rfl, ?_, ?_⟩
  · intro c r
    constructor
    · dsimp only [speakingFallbackScore]
      split
      · exact le_refl 0
      · positivity
    · dsimp only [speakingFallbackScore]
      split
      · exact Or.inl (by norm_num)
      · split
        · exact Or.inr rfl
        · exact Or.inl rfl
  · intro r
    have h : lowerWords "" = [] := by decide
    unfold speakingFallbackScore
    rw [h]
    norm_num

/-- C9: `best_streak` is monotonically non-decreasing: after either streak
updater it equals `max` of the previous `best_streak` and the (new)
`current_streak`, and every submission entry point — on success as on
error — leaves every user's `best_streak` at least as large as before. -/
theorem claim9_best_streak_monotone :
    (∀ (st : St) (uid : Nat) (today : Int) (pts : Nat),
      ((updateStreakChecked st uid today pts).users uid).best_streak
        = max (st.users uid).best_streak
            ((updateStreakChecked st uid today pts).users uid).current_streak) ∧
    (∀ (st : St) (uid : Nat) (today : Int) (pts : Nat),
      ((updateStreakUncond st uid today pts).users uid).best_streak
        = max (st.users uid).best_streak
            ((updateStreakUncond st uid today pts).users uid).current_streak) ∧
    (∀ (env : Env) (st : St) (uid : Nat) (today : Int) (c : Nat) (txt : String)
        (o : Option Nat) (v : Nat),
      (st.users v).best_streak
        ≤ (((submitSpeaking env st uid today c txt o).1).users v).best_streak) ∧
    (∀ (env : Env) (st : St) (uid : Nat) (today : Int) (c : Nat) (txt : String)
        (o : Option Nat) (v : Nat),
      (st.users v).best_streak
        ≤ (((submitSpeakingAudio env st uid today c txt o).1).users v).best_streak) ∧
    (∀ (env : Env) (st : St) (uid : Nat) (today : Int) (c : Nat) (txt : String)
        (o : Option Nat) (v : Nat),
      (st.users v).best_streak
        ≤ (((submitListening env st uid today c txt o).1).users v).best_streak) ∧
    (∀ (env : Env) (st : St) (uid : Nat) (today : Int) (c : Nat) (txt : String)
        (o : Option Nat) (v : Nat),
      (st.users v).best_streak
        ≤ (((submitObservation env st uid today c txt o).1).users v).best_streak) ∧
    (∀ (st : St) (uid : Nat) (c : Nat) (txt : String) (o : Option Nat) (v : Nat),
      (st.users v).best_streak
        ≤ (((submitWriting st uid c txt o).1).users v).best_streak) ∧
    (∀ (env : Env) (st : St) (uid : Nat) (today : Int) (n : Nat) (v : Nat),
      (st.users v).best_streak
        ≤ (((submitQuote env st uid today n).1).users v).best_streak) := by
  refine ⟨updateStreakChecked_best_eq, updateStreakUncond_best_eq, ?_, ?_, ?_, ?_, ?_, ?_⟩
  · intro env st uid today c txt o v
    unfold submitSpeaking
    split
    · exact le_refl _
    split
    · exact le_refl _
    exact bestAfterPipelineChecked _ _ _ _ _ _
  · intro env st uid today c txt o v
    unfold submitSpeakingAudio
    split
    · exact le_refl _
    split
    · exact le_refl _
    exact bestAfterPipelineUncond _ _ _ _ _ _
  · intro env st uid today c txt o v
    unfold submitListening
    split
    · exact le_refl _
    split
    · exact le_refl _
    exact bestAfterPipelineUncond _ _ _ _ _ _
  · intro env st uid today c txt o v
    unfold submitObservation
    split
    · exact le_refl _
    split
    · exact le_refl _
    exact bestAfterPipelineUncond _ _ _ _ _ _
  · intro st uid c txt o v
    unfold submitWriting
    split
    · exact le_refl _
    split
    · exact le_refl _
    have h : (((addPoints (addCompletion st
        ⟨uid, "writing", c, ⌊(writingScore txt o).1⌋, (writingScore txt o).2⟩)
          uid (writingScore txt o).2).users v)).best_streak
        = (st.users v).best_streak := by
      rw [addPoints_best]
      rfl
    exact le_of_eq h.symm
  · intro env st uid today n v
    unfold submitQuote
    split
    · exact le_refl _
    refine le_of_eq ?_
    rw [addPoints_best]
    rfl

/-! ## Concrete fixtures used by counterexamples and witnesses -/

/-- A small content catalog: biography 1 has content "hello world",
listening item 1 has transcript "hello", observation item 1 expects "yes";
every user is in department "CSE". -/
def envEx : Env where
  bios := fun i => if i = 1 then some "hello world" else none
  transcripts := fun i => if i = 1 then some "hello" else none
  answers := fun i => if i = 1 then some "yes" else none
  dept := fun _ => "CSE"

/-- The empty store: fresh users, no completions, no streak rows, no quotes. -/
def stEmpty : St where
  users := fun _ => ⟨0, 0, 0⟩
  completions := []
  streaks := fun _ _ => none
  quotes := []

/-- A store in which user 1 already has a completion in every module for
content 1 (and the writing quote with id 1 exists). -/
def stDup : St where
  users := fun _ => ⟨10, 1, 1⟩
  completions := [⟨1, "speaking", 1, 50, 8⟩, ⟨1, "listening", 1, 60, 8⟩,
                  ⟨1, "observation", 1, 70, 8⟩, ⟨1, "writing", 1, 80, 8⟩]
  streaks := fun _ _ => none
  quotes := [⟨1, 2, 0, true⟩]

/-- The store after user 1 posts the daily quote on day 0. -/
def stQuoteDay0 : St := (submitQuote envEx stEmpty 1 0 1).1

/-! ## C1 — duplicate completions -/

/-- C1 (amended): at the five graded submission entry points
(`submit_speaking`, `submit_speaking_audio`, `submit_listening`,
`submit_observation`, `submit_writing`) an existing completion for the
same (user, module kind, content) key makes the handler return the
duplicate error with the store unchanged — no ledger row, no
`total_points` change, no streak change, and the recorded score/points of
the existing completion untouched.  The quote-posting endpoint is the
exception recorded in the counterexample. -/
theorem claim1_graded_duplicate_rejected :
    (∀ (env : Env) (st : St) (uid : Nat) (today : Int) (c : Nat) (txt : String)
        (o : Option Nat), hasCompletion st uid "speaking" c = true →
      submitSpeaking env st uid today c txt o = (st, .error .duplicate)) ∧
    (∀ (env : Env) (st : St) (uid : Nat) (today : Int) (c : Nat) (txt : String)
        (o : Option Nat), hasCompletion st uid "speaking" c = true →
      submitSpeakingAudio env st uid today c txt o = (st, .error .duplicate)) ∧
    (∀ (env : Env) (st : St) (uid : Nat) (today : Int) (c : Nat) (txt : String)
        (o : Option Nat), hasCompletion st uid "listening" c = true →
      submitListening env st uid today c txt o = (st, .error .duplicate)) ∧
    (∀ (env : Env) (st : St) (uid : Nat) (today : Int) (c : Nat) (txt : String)
        (o : Option Nat), hasCompletion st uid "observation" c = true →
      submitObservation env st uid today c txt o = (st, .error .duplicate)) ∧
    (∀ (st : St) (uid : Nat) (c : Nat) (txt : String) (o : Option Nat),
      hasCompletion st uid "writing" c = true →
      submitWriting st uid c txt o = (st, .error .duplicate)) := by
  refine ⟨?_, ?_, ?_, ?_, ?_⟩ <;> intros <;>
    simp_all [submitSpeaking, submitSpeakingAudio, submitListening,
      submitObservation, submitWriting]

/-- Witness for C1's amended theorem at concrete inputs: user 1 of `stDup`
has completed everything for content 1, and each handler rejects. -/
theorem claim1_graded_duplicate_rejected_witness :
    submitSpeaking envEx stDup 1 0 1 "hi" none = (stDup, .error .duplicate) ∧
    submitSpeakingAudio envEx stDup 1 0 1 "hi" none = (stDup, .error .duplicate) ∧
    submitListening envEx stDup 1 0 1 "hi" none = (stDup, .error .duplicate) ∧
    submitObservation envEx stDup 1 0 1 "hi" none = (stDup, .error .duplicate) ∧
    submitWriting stDup 1 1 "hi" none = (stDup, .error .duplicate) :=
  ⟨claim1_graded_duplicate_rejected.1 envEx stDup 1 0 1 "hi" none (by decide),
   claim1_graded_duplicate_rejected.2.1 envEx stDup 1 0 1 "hi" none (by decide),
   claim1_graded_duplicate_rejected.2.2.1 envEx stDup 1 0 1 "hi" none (by decide),
   claim1_graded_duplicate_rejected.2.2.2.1 envEx stDup 1 0 1 "hi" none (by decide),
   claim1_graded_duplicate_rejected.2.2.2.2 stDup 1 1 "hi" none (by decide)⟩

/-- C1 counterexample: after user 1's quote post of day 0 recorded a
completion for (1, writing, 0), a second quote post on day 1 — a later
submission for the same (user, module, content) key — is not rejected: it
succeeds with 15 points, records a second (1, writing, 0) ledger row, and
raises `total_points` from 15 to 30. -/
theorem claim1_counterexample :
    hasCompletion stQuoteDay0 1 "writing" 0 = true ∧
    (stQuoteDay0.users 1).total_points = 15 ∧
    (submitQuote envEx stQuoteDay0 1 1 2).2 = .ok 15 ∧
    ((submitQuote envEx stQuoteDay0 1 1 2).1.completions.filter
      (fun r => r.user_id == 1 && r.module_type == "writing"
        && r.content_id == 0)).length = 2 ∧
    ((submitQuote envEx stQuoteDay0 1 1 2).1.users 1).total_points = 30 := by
  decide

/-! ## C8 — certificate eligibility -/

/-- C8: `is_certificate_ready` holds exactly when the ledger has at least
one completion of the user in each of the four module kinds, independent
of scores or attempt counts; it is preserved by any extension of the
ledger, and every submission entry point (on success as on error) only
extends the ledger, so once true it never becomes false. -/
theorem claim8_certificate_ready :
    (∀ (st : St) (uid : Nat), is_certificate_ready st uid = true ↔
      ∀ m ∈ (["speaking", "listening", "writing", "observation"] : List String),
        ∃ r ∈ st.completions, r.user_id = uid ∧ r.module_type = m) ∧
    (∀ (st st' : St) (uid : Nat), st.completions <:+ st'.completions →
      is_certificate_ready st uid = true → is_certificate_ready st' uid = true) ∧
    (∀ (env : Env) (st : St) (v : Nat) (today : Int) (c : Nat) (txt : String)
        (o : Option Nat),
      st.completions <:+ ((submitSpeaking env st v today c txt o).1).completions) ∧
    (∀ (env : Env) (st : St) (v : Nat) (today : Int) (c : Nat) (txt : String)
        (o : Option Nat),
      st.completions <:+ ((submitSpeakingAudio env st v today c txt o).1).completions) ∧
    (∀ (env : Env) (st : St) (v : Nat) (today : Int) (c : Nat) (txt : String)
        (o : Option Nat),
      st.completions <:+ ((submitListening env st v today c txt o).1).completions) ∧
    (∀ (env : Env) (st : St) (v : Nat) (today : Int) (c : Nat) (txt : String)
        (o : Option Nat),
      st.completions <:+ ((submitObservation env st v today c txt o).1).completions) ∧
    (∀ (st : St) (v : Nat) (c : Nat) (txt : String) (o : Option Nat),
      st.completions <:+ ((submitWriting st v c txt o).1).completions) ∧
    (∀ (env : Env) (st : St) (v : Nat) (today : Int) (n : Nat),
      st.completions <:+ ((submitQuote env st v today n).1).completions) := by
  refine ⟨certReady_iff, ?_, ?_, ?_, ?_, ?_, ?_, ?_⟩
  · intro st st' uid hsub h
    rw [certReady_iff] at h ⊢
    intro m hm
    obtain ⟨r, hr, hru, hrm⟩ := h m hm
    exact ⟨r, hsub.sublist.subset hr, hru, hrm⟩
  · intro env st v today c txt o
    unfold submitSpeaking
    split
    · exact List.suffix_refl _
    split
    · exact List.suffix_refl _
    rw [updateStreakChecked_completions, addPoints_completions, addCompletion_completions]
    exact List.suffix_cons _ _
  · intro env st v today c txt o
    unfold submitSpeakingAudio
    split
    · exact List.suffix_refl _
    split
    · exact List.suffix_refl _
    rw [updateStreakUncond_completions, addPoints_completions, addCompletion_completions]
    exact List.suffix_cons _ _
  · intro env st v today c txt o
    unfold submitListening
    split
    · exact List.suffix_refl _
    split
    · exact List.suffix_refl _
    rw [updateStreakUncond_completions, addPoints_completions, addCompletion_completions]
    exact List.suffix_cons _ _
  · intro env st v today c txt o
    unfold submitObservation
    split
    · exact List.suffix_refl _
    split
    · exact List.suffix_refl _
    rw [updateStreakUncond_completions, addPoints_completions, addCompletion_completions]
    exact List.suffix_cons _ _
  · intro st v c txt o
    unfold submitWriting
    split
    · exact List.suffix_refl _
    split
    · exact List.suffix_refl _
    rw [addPoints_completions, addCompletion_completions]
    exact List.suffix_cons _ _
  · intro env st v today n
    unfold submitQuote
    split
    · exact List.suffix_refl _
    rw [addPoints_completions, addCompletion_completions]
    exact List.suffix_cons _ _

/-- Witness for C8: `stDup` already has all four module kinds for user 1;
the eligibility transfers along a concrete ledger extension, and the
characterisation holds there. -/
theorem claim8_certificate_ready_witness :
    is_certificate_ready
      { stDup with completions := ⟨2, "speaking", 9, 10, 8⟩ :: stDup.completions } 1
      = true :=
  claim8_certificate_ready.2.1 stDup
    { stDup with completions := ⟨2, "speaking", 9, 10, 8⟩ :: stDup.completions } 1
    (List.suffix_cons _ _) (by decide)

/-! ## C3, C4, C5 — scoring formulas -/

/-- Catalog with a one-word biography, used to exhibit the unclamped
speaking fallback score. -/
def envHello : Env where
  bios := fun i => if i = 1 then some "hello" else none
  transcripts := fun _ => none
  answers := fun _ => none
  dept := fun _ => "CSE"

theorem speakingFallback_hello :
    speakingFallbackScore "hello" "hello hello" = (200, 10, 200) := by
  have hm : ((lowerWords "hello hello").filter
      (fun w => (lowerWords "hello").contains w)).length = 2 := by decide
  have hl : (lowerWords "hello").length = 1 := by decide
  have he : (lowerWords "hello").isEmpty = false := by decide
  simp only [speakingFallbackScore, hm, hl, he]
  norm_num

theorem speakingFallback_captain :
    speakingFallbackScore "the captain cool" "the captain is cool"
      = (100, 10, 100) := by
  have hm : ((lowerWords "the captain is cool").filter
      (fun w => (lowerWords "the captain cool").contains w)).length = 3 := by decide
  have hl : (lowerWords "the captain cool").length = 3 := by decide
  have he : (lowerWords "the captain cool").isEmpty = false := by decide
  simp only [speakingFallbackScore, hm, hl, he]
  norm_num

/-- C3 (code bug): the speaking fallback divides the count of submission
word tokens by the number of reference words without clamping, so a
submission that repeats reference words is stored with a score above 100:
with biography content "hello" and submission "hello hello" the fallback
similarity is 200 and the ledger row created by `submit_speaking` records
score 200, violating the score ∈ [0,100] invariant. -/
theorem claim3_fallback_score_exceeds_100 :
    speakingFallbackScore "hello" "hello hello" = (200, 10, 200) ∧
    (submitSpeaking envHello stEmpty 1 0 1 "hello hello" none).1.completions
      = [⟨1, "speaking", 1, 200, 10⟩] := by
  refine ⟨speakingFallback_hello, ?_⟩
  have hdup : hasCompletion stEmpty 1 "speaking" 1 = false := by decide
  have hbio : envHello.bios 1 = some "hello" := by decide
  simp only [submitSpeaking, hdup, hbio, speakingScore, speakingFallback_hello,
    Bool.false_eq_true, if_false]
  rw [updateStreakChecked_completions, addPoints_completions, addCompletion_completions]
  decide

/-- C4 counterexample: for reference words "the captain cool" and
submission "the captain is cool" the speaking fallback of the source
yields score 100 and points 10 — not score 66 and points 8 as claimed
(all three submission-word matches are divided by the three reference
words, giving similarity 100, which clears the ≥ 70 points threshold). -/
theorem claim4_counterexample :
    speakingFallbackScore "the captain cool" "the captain is cool"
        = (100, 10, 100) ∧
    ¬ ((speakingFallbackScore "the captain cool" "the captain is cool").1 = 66 ∧
       (speakingFallbackScore "the captain cool" "the captain is cool").2.1 = 8) := by
  refine ⟨speakingFallback_captain, ?_⟩
  rw [speakingFallback_captain]
  norm_num

/-- The speaking fallback formula as the amended claim states it: the
number of submission word tokens found literally in the reference word
list, divided by the number of reference words, times 100 (0 when the
reference is empty); points 10 when similarity ≥ 70 and 8 otherwise;
score = floor(similarity). -/
def speakingFallbackSpec (content recorded_text : String) : Int × Nat :=
  let refWords := lowerWords content
  let subWords := lowerWords recorded_text
  let matching := (subWords.filter (fun w => refWords.contains w)).length
  let similarity : ℚ :=
    if refWords.isEmpty then 0
    else (matching : ℚ) / (refWords.length : ℚ) * 100
  (⌊similarity⌋, if 70 ≤ similarity then 10 else 8)

/-- C4 (amended): the speaking fallback computes the matching-token count
over the reference word count (not over the submission length), with
points 10 iff similarity ≥ 70, else 8, and score = floor(similarity); on
the claim's example this yields points 10 and score 100. -/
theorem claim4_amended_fallback_formula :
    (∀ content recorded_text : String,
      ((speakingFallbackScore content recorded_text).1,
        (speakingFallbackScore content recorded_text).2.1)
        = speakingFallbackSpec content recorded_text) ∧
    speakingFallbackScore "the captain cool" "the captain is cool"
      = (100, 10, 100) :=
  ⟨fun _ _ => rfl, speakingFallback_captain⟩

/-- A writing submission of exactly 80 whitespace-separated words. -/
def response80 : String := String.intercalate " " (List.replicate 80 "a")

theorem writingOracle_response80 : writingOracleScore response80 3 = (80, 12) := by
  have hw : (pySplit response80.toList).length = 80 := by decide
  simp only [writingOracleScore, hw]
  norm_num [min_def]

/-- C5 counterexample: a submission of exactly 80 words with rating 3 is
scored (min(100, 80×1.5) + 3×20)/2 = (100 + 60)/2 = 80 by the source, not
90 as the claim's example states (points 12 are as claimed). -/
theorem claim5_counterexample :
    writingOracleScore response80 3 = (80, 12) ∧
    ¬ (writingOracleScore response80 3).1 = 90 := by
  refine ⟨writingOracle_response80, ?_⟩
  rw [writingOracle_response80]
  norm_num

/-- The writing oracle-path formula as the claim states it. -/
def writingOracleSpec (user_response : String) (rating : Nat) : ℚ × Nat :=
  let wordCount := (pySplit user_response.toList).length
  ((min 100 ((wordCount : ℚ) * 1.5) + (rating : ℚ) * 20) / 2,
   if 100 ≤ wordCount ∧ 4 ≤ rating then 15
   else if 75 ≤ wordCount ∨ 3 ≤ rating then 12
   else 10)

/-- C5 (amended): the writing oracle-path score is
(min(100, wordCount×1.5) + rating×20)/2 with points 15 / 12 / 10 by the
claimed thresholds, and the 80-word rating-3 example earns points 12 with
score 80.0 (not 90.0). -/
theorem claim5_amended_writing_oracle :
    (∀ (user_response : String) (rating : Nat),
      writingOracleScore user_response rating
        = writingOracleSpec user_response rating) ∧
    writingOracleScore response80 3 = (80, 12) :=
  ⟨fun _ _ => rfl, writingOracle_response80⟩

/-! ## C6 — daily streak updates -/

/-- Store where user 1 has current streak 5 but no streak row for any day
(in particular none for yesterday). -/
def stStreak5 : St where
  users := fun _ => ⟨0, 5, 5⟩
  completions := []
  streaks := fun _ _ => none
  quotes := []

/-- Store `stEmpty` with an existing streak row ⟨2 modules, 7 points⟩ for
user 1 on day 0. -/
def stToday : St := setStreakCell stEmpty 1 0 ⟨2, 7⟩

/-- C6 counterexample: `submit_listening` on a first activity of the day
with no record for the preceding day does not reset `current_streak` to 1
as the claim requires of every entry point — it increments it
unconditionally (here from 5 to 6). -/
theorem claim6_counterexample :
    stStreak5.streaks 1 (-1) = none ∧
    (((submitListening envEx stStreak5 1 0 1 "hi" none).1).users 1).current_streak = 6 ∧
    ¬ (((submitListening envEx stStreak5 1 0 1 "hi" none).1).users 1).current_streak = 1 := by
  decide

/-- C6 (amended): on a first activity of the day `submit_speaking` sets
`current_streak` to its increment or to 1 according to whether yesterday's
row exists, while the streak update shared by `submit_speaking_audio`,
`submit_listening` and `submit_observation` increments unconditionally;
in both variants a fresh row ⟨1, points⟩ is created, and when today's row
already exists it is incremented (modules and points) with
`current_streak` untouched; `submit_writing` and `submit_quote` perform no
streak mutation at all. -/
theorem claim6_amended_streak_update :
    (∀ (st : St) (uid : Nat) (today : Int) (pts : Nat),
      st.streaks uid today = none →
      ((updateStreakChecked st uid today pts).users uid).current_streak
          = (if (st.streaks uid (today - 1)).isSome
             then (st.users uid).current_streak + 1 else 1) ∧
        (updateStreakChecked st uid today pts).streaks uid today = some ⟨1, pts⟩) ∧
    (∀ (st : St) (uid : Nat) (today : Int) (pts : Nat) (cell : StreakCell),
      st.streaks uid today = some cell →
      ((updateStreakChecked st uid today pts).users uid).current_streak
          = (st.users uid).current_streak ∧
        (updateStreakChecked st uid today pts).streaks uid today
          = some ⟨cell.modules_completed + 1, cell.points_earned + pts⟩) ∧
    (∀ (st : St) (uid : Nat) (today : Int) (pts : Nat),
      st.streaks uid today = none →
      ((updateStreakUncond st uid today pts).users uid).current_streak
          = (st.users uid).current_streak + 1 ∧
        (updateStreakUncond st uid today pts).streaks uid today = some ⟨1, pts⟩) ∧
    (∀ (st : St) (uid : Nat) (today : Int) (pts : Nat) (cell : StreakCell),
      st.streaks uid today = some cell →
      ((updateStreakUncond st uid today pts).users uid).current_streak
          = (st.users uid).current_streak ∧
        (updateStreakUncond st uid today pts).streaks uid today
          = some ⟨cell.modules_completed + 1, cell.points_earned + pts⟩) ∧
    (∀ (st : St) (uid : Nat) (c : Nat) (txt : String) (o : Option Nat),
      (submitWriting st uid c txt o).1.streaks = st.streaks ∧
        ((submitWriting st uid c txt o).1.users uid).current_streak
          = (st.users uid).current_streak) ∧
    (∀ (env : Env) (st : St) (uid : Nat) (today : Int) (n : Nat),
      (submitQuote env st uid today n).1.streaks = st.streaks ∧
        ((submitQuote env st uid today n).1.users uid).current_streak
          = (st.users uid).current_streak) := by
  refine ⟨?_, ?_, ?_, ?_, ?_, ?_⟩
  · intro st uid today pts h
    unfold updateStreakChecked
    rw [h]
    exact ⟨by simp [setStreakCell, setUser], by simp [setStreakCell]⟩
  · intro st uid today pts cell h
    unfold updateStreakChecked
    rw [h]
    exact ⟨by simp [setStreakCell, setUser], by simp [setStreakCell]⟩
  · intro st uid today pts h
    unfold updateStreakUncond
    rw [h]
    exact ⟨by simp [setStreakCell, setUser], by simp [setStreakCell]⟩
  · intro st uid today pts cell h
    unfold updateStreakUncond
    rw [h]
    exact ⟨by simp [setStreakCell, setUser], by simp [setStreakCell]⟩
  · intro st uid c txt o
    constructor
    · unfold submitWriting
      split
      · rfl
      split
      · rfl
      rfl
    · unfold submitWriting
      split
      · rfl
      split
      · rfl
      rw [addPoints_current]
      rfl
  · intro env st uid today n
    constructor
    · unfold submitQuote
      split
      · rfl
      rfl
    · unfold submitQuote
      split
      · rfl
      rw [addPoints_current]
      rfl

/-- Witness for C6's amended theorem: both updaters applied to concrete
stores with and without a streak row for day 0. -/
theorem claim6_amended_streak_update_witness :
    (((updateStreakChecked stEmpty 1 0 5).users 1).current_streak
        = (if (stEmpty.streaks 1 (0 - 1)).isSome
           then (stEmpty.users 1).current_streak + 1 else 1) ∧
      (updateStreakChecked stEmpty 1 0 5).streaks 1 0 = some ⟨1, 5⟩) ∧
    (((updateStreakChecked stToday 1 0 5).users 1).current_streak
        = (stToday.users 1).current_streak ∧
      (updateStreakChecked stToday 1 0 5).streaks 1 0 = some ⟨3, 12⟩) ∧
    (((updateStreakUncond stEmpty 1 0 5).users 1).current_streak
        = (stEmpty.users 1).current_streak + 1 ∧
      (updateStreakUncond stEmpty 1 0 5).streaks 1 0 = some ⟨1, 5⟩) ∧
    (((updateStreakUncond stToday 1 0 5).users 1).current_streak
        = (stToday.users 1).current_streak ∧
      (updateStreakUncond stToday 1 0 5).streaks 1 0 = some ⟨3, 12⟩) :=
  ⟨claim6_amended_streak_update.1 stEmpty 1 0 5 (by decide),
   claim6_amended_streak_update.2.1 stToday 1 0 5 ⟨2, 7⟩ (by decide),
   claim6_amended_streak_update.2.2.1 stEmpty 1 0 5 (by decide),
   claim6_amended_streak_update.2.2.2.1 stToday 1 0 5 ⟨2, 7⟩ (by decide)⟩

/-! ## C7 — mutations per submission -/

theorem submitWriting_concrete_run :
    submitWriting stDup 2 1 "nice quote indeed" none
      = (addPoints (addCompletion stDup ⟨2, "writing", 1, 6, 8⟩) 2 8,
          .ok (6, 8)) := by
  have hw : (pySplit ("nice quote indeed" : String).toList).length = 3 := by decide
  have hwf : writingScore "nice quote indeed" none = (6, 8) := by
    simp only [writingScore, writingFallbackScore, hw]
    norm_num [min_def]
  have hdup : hasCompletion stDup 2 "writing" 1 = false := by decide
  have hq : (stDup.quotes.any (fun q => q.quote_id == 1)) = true := by decide
  simp only [submitWriting, hdup, hq, Bool.false_eq_true, if_false, not_true,
    hwf]
  norm_num

/-- C7 counterexample: a successful `submit_writing` does not perform the
three mutations together — it records the completion (ledger grows from 4
to 5 rows) and adds the points (10 → 18) but leaves the streak store and
`current_streak` untouched. -/
theorem claim7_counterexample :
    (submitWriting stDup 2 1 "nice quote indeed" none).2 = .ok (6, 8) ∧
    (submitWriting stDup 2 1 "nice quote indeed" none).1.completions.length = 5 ∧
    ((submitWriting stDup 2 1 "nice quote indeed" none).1.users 2).total_points = 18 ∧
    (submitWriting stDup 2 1 "nice quote indeed" none).1.streaks = stDup.streaks ∧
    ((submitWriting stDup 2 1 "nice quote indeed" none).1.users 2).current_streak
      = (stDup.users 2).current_streak := by
  rw [submitWriting_concrete_run]
  refine ⟨rfl, by decide, by decide, rfl, by decide⟩

/-- C7 (amended): at every entry point an error outcome applies none of
the in-scope mutations (the store is returned unchanged); a successful
speaking, speaking-audio, listening or observation submission records the
completion, adds its points to the submitting user's `total_points` and
updates the day's streak row together; a successful writing or quote
submission records the completion and adds the points but performs no
streak mutation. -/
theorem claim7_amended_mutations :
    (∀ (env : Env) (st : St) (uid : Nat) (today : Int) (c : Nat) (txt : String)
        (o : Option Nat) (e : SubmitErr),
      (submitSpeaking env st uid today c txt o).2 = .error e →
      (submitSpeaking env st uid today c txt o).1 = st) ∧
    (∀ (env : Env) (st : St) (uid : Nat) (today : Int) (c : Nat) (txt : String)
        (o : Option Nat) (e : SubmitErr),
      (submitSpeakingAudio env st uid today c txt o).2 = .error e →
      (submitSpeakingAudio env st uid today c txt o).1 = st) ∧
    (∀ (env : Env) (st : St) (uid : Nat) (today : Int) (c : Nat) (txt : String)
        (o : Option Nat) (e : SubmitErr),
      (submitListening env st uid today c txt o).2 = .error e →
      (submitListening env st uid today c txt o).1 = st) ∧
    (∀ (env : Env) (st : St) (uid : Nat) (today : Int) (c : Nat) (txt : String)
        (o : Option Nat) (e : SubmitErr),
      (submitObservation env st uid today c txt o).2 = .error e →
      (submitObservation env st uid today c txt o).1 = st) ∧
    (∀ (st : St) (uid : Nat) (c : Nat) (txt : String) (o : Option Nat)
        (e : SubmitErr),
      (submitWriting st uid c txt o).2 = .error e →
      (submitWriting st uid c txt o).1 = st) ∧
    (∀ (env : Env) (st : St) (uid : Nat) (today : Int) (n : Nat) (e : SubmitErr),
      (submitQuote env st uid today n).2 = .error e →
      (submitQuote env st uid today n).1 = st) ∧
    (∀ (env : Env) (st : St) (uid : Nat) (today : Int) (c : Nat) (txt : String)
        (o : Option Nat) (out : Int × Nat),
      (submitSpeaking env st uid today c txt o).2 = .ok out →
      (submitSpeaking env st uid today c txt o).1.completions.length
          = st.completions.length + 1 ∧
        ((submitSpeaking env st uid today c txt o).1.users uid).total_points
          = (st.users uid).total_points + out.2 ∧
        (((submitSpeaking env st uid today c txt o).1).streaks uid today).isSome
          = true) ∧
    (∀ (env : Env) (st : St) (uid : Nat) (today : Int) (c : Nat) (txt : String)
        (o : Option Nat) (out : Int × Nat),
      (submitSpeakingAudio env st uid today c txt o).2 = .ok out →
      (submitSpeakingAudio env st uid today c txt o).1.completions.length
          = st.completions.length + 1 ∧
        ((submitSpeakingAudio env st uid today c txt o).1.users uid).total_points
          = (st.users uid).total_points + out.2 ∧
        (((submitSpeakingAudio env st uid today c txt o).1).streaks uid today).isSome
          = true) ∧
    (∀ (env : Env) (st : St) (uid : Nat) (today : Int) (c : Nat) (txt : String)
        (o : Option Nat) (out : Int × Nat),
      (submitListening env st uid today c txt o).2 = .ok out →
      (submitListening env st uid today c txt o).1.completions.length
          = st.completions.length + 1 ∧
        ((submitListening env st uid today c txt o).1.users uid).total_points
          = (st.users uid).total_points + out.2 ∧
        (((submitListening env st uid today c txt o).1).streaks uid today).isSome
          = true) ∧
    (∀ (env : Env) (st : St) (uid : Nat) (today : Int) (c : Nat) (txt : String)
        (o : Option Nat) (out : Int × Nat),
      (submitObservation env st uid today c txt o).2 = .ok out →
      (submitObservation env st uid today c txt o).1.completions.length
          = st.completions.length + 1 ∧
        ((submitObservation env st uid today c txt o).1.users uid).total_points
          = (st.users uid).total_points + out.2 ∧
        (((submitObservation env st uid today c txt o).1).streaks uid today).isSome
          = true) ∧
    (∀ (st : St) (uid : Nat) (c : Nat) (txt : String) (o : Option Nat)
        (out : Int × Nat),
      (submitWriting st uid c txt o).2 = .ok out →
      (submitWriting st uid c txt o).1.completions.length
          = st.completions.length + 1 ∧
        ((submitWriting st uid c txt o).1.users uid).total_points
          = (st.users uid).total_points + out.2 ∧
        (submitWriting st uid c txt o).1.streaks = st.streaks) ∧
    (∀ (env : Env) (st : St) (uid : Nat) (today : Int) (n : Nat) (p : Nat),
      (submitQuote env st uid today n).2 = .ok p →
      (submitQuote env st uid today n).1.completions.length
          = st.completions.length + 1 ∧
        ((submitQuote env st uid today n).1.users uid).total_points
          = (st.users uid).total_points + p ∧
        (submitQuote env st uid today n).1.streaks = st.streaks) := by
  refine ⟨?_, ?_, ?_, ?_, ?_, ?_, ?_, ?_, ?_, ?_, ?_, ?_⟩
  · intro env st uid today c txt o e
    unfold submitSpeaking
    split
    · intro _; rfl
    split
    · intro _; rfl
    intro h
    simp at h
  · intro env st uid today c txt o e
    unfold submitSpeakingAudio
    split
    · intro _; rfl
    split
    · intro _; rfl
    intro h
    simp at h
  · intro env st uid today c txt o e
    unfold submitListening
    split
    · intro _; rfl
    split
    · intro _; rfl
    intro h
    simp at h
  · intro env st uid today c txt o e
    unfold submitObservation
    split
    · intro _; rfl
    split
    · intro _; rfl
    intro h
    simp at h
  · intro st uid c txt o e
    unfold submitWriting
    split
    · intro _; rfl
    split
    · intro _; rfl
    intro h
    simp at h
  · intro env st uid today n e
    unfold submitQuote
    split
    · intro _; rfl
    intro h
    simp at h
  · intro env st uid today c txt o out
    unfold submitSpeaking
    split
    · intro h; simp at h
    split
    · intro h; simp at h
    rename_i content heq
    intro h
    dsimp only [] at h ⊢
    injection h with h2
    subst h2
    refine ⟨?_, ?_, updateStreakChecked_streaks_isSome _ _ _ _⟩
    · rw [updateStreakChecked_completions, addPoints_completions,
        addCompletion_completions]
      rfl
    · rw [updateStreakChecked_total, addPoints_total_self]
      rfl
  · intro env st uid today c txt o out
    unfold submitSpeakingAudio
    split
    · intro h; simp at h
    split
    · intro h; simp at h
    rename_i content heq
    intro h
    dsimp only [] at h ⊢
    injection h with h2
    subst h2
    refine ⟨?_, ?_, updateStreakUncond_streaks_isSome _ _ _ _⟩
    · rw [updateStreakUncond_completions, addPoints_completions,
        addCompletion_completions]
      rfl
    · rw [updateStreakUncond_total, addPoints_total_self]
      rfl
  · intro env st uid today c txt o out
    unfold submitListening
    split
    · intro h; simp at h
    split
    · intro h; simp at h
    rename_i transcript heq
    intro h
    dsimp only [] at h ⊢
    injection h with h2
    subst h2
    refine ⟨?_, ?_, updateStreakUncond_streaks_isSome _ _ _ _⟩
    · rw [updateStreakUncond_completions, addPoints_completions,
        addCompletion_completions]
      rfl
    · rw [updateStreakUncond_total, addPoints_total_self]
      rfl
  · intro env st uid today c txt o out
    unfold submitObservation
    split
    · intro h; simp at h
    split
    · intro h; simp at h
    rename_i correct heq
    intro h
    dsimp only [] at h ⊢
    injection h with h2
    subst h2
    refine ⟨?_, ?_, updateStreakUncond_streaks_isSome _ _ _ _⟩
    · rw [updateStreakUncond_completions, addPoints_completions,
        addCompletion_completions]
      rfl
    · rw [updateStreakUncond_total, addPoints_total_self]
      rfl
  · intro st uid c txt o out
    unfold submitWriting
    split
    · intro h; simp at h
    split
    · intro h; simp at h
    intro h
    dsimp only [] at h ⊢
    injection h with h2
    subst h2
    refine ⟨?_, ?_, rfl⟩
    · rw [addPoints_completions, addCompletion_completions]
      rfl
    · rw [addPoints_total_self]
      rfl
  · intro env st uid today n p
    unfold submitQuote
    split
    · intro h; simp at h
    intro h
    dsimp only [] at h ⊢
    injection h with h2
    subst h2
    refine ⟨?_, ?_, rfl⟩
    · rw [addPoints_completions, addCompletion_completions]
      rfl
    · rw [addPoints_total_self]
      rfl

theorem submitSpeaking_run_snd :
    (submitSpeaking envEx stDup 2 0 1 "hello planet" none).2 = .ok (50, 8) := by
  have hm : ((lowerWords "hello planet").filter
      (fun w => (lowerWords "hello world").contains w)).length = 1 := by decide
  have hl : (lowerWords "hello world").length = 2 := by decide
  have he : (lowerWords "hello world").isEmpty = false := by decide
  have hfb : speakingScore "hello world" "hello planet" none = (50, 8, 50) := by
    simp only [speakingScore, speakingFallbackScore, hm, hl, he]
    norm_num
  have hdup : hasCompletion stDup 2 "speaking" 1 = false := by decide
  have hbio : envEx.bios 1 = some "hello world" := by decide
  simp only [submitSpeaking, hdup, hbio, Bool.false_eq_true, if_false, hfb]

theorem submitSpeakingAudio_run_snd :
    (submitSpeakingAudio envEx stDup 2 0 1 "hello planet" none).2 = .ok (50, 8) := by
  have hm : ((lowerWords "hello planet").filter
      (fun w => (lowerWords "hello world").contains w)).length = 1 := by decide
  have hl : (lowerWords "hello world").length = 2 := by decide
  have he : (lowerWords "hello world").isEmpty = false := by decide
  have hfb : speakingScore "hello world" "hello planet" none = (50, 8, 50) := by
    simp only [speakingScore, speakingFallbackScore, hm, hl, he]
    norm_num
  have hdup : hasCompletion stDup 2 "speaking" 1 = false := by decide
  have hbio : envEx.bios 1 = some "hello world" := by decide
  simp only [submitSpeakingAudio, hdup, hbio, Bool.false_eq_true, if_false, hfb]

/-- Witness for C7's amended theorem: every error outcome at concrete
inputs leaves the store untouched, and concrete successful runs of each
entry point show the mutation sets the amended claim describes. -/
theorem claim7_amended_mutations_witness :
    (submitSpeaking envEx stDup 1 0 1 "hi" none).1 = stDup ∧
    (submitSpeakingAudio envEx stDup 1 0 1 "hi" none).1 = stDup ∧
    (submitListening envEx stDup 1 0 1 "hi" none).1 = stDup ∧
    (submitObservation envEx stDup 1 0 1 "hi" none).1 = stDup ∧
    (submitWriting stDup 1 1 "hi" none).1 = stDup ∧
    (submitQuote envEx stDup 2 0 9).1 = stDup ∧
    ((submitSpeaking envEx stDup 2 0 1 "hello planet" none).1.completions.length
        = stDup.completions.length + 1 ∧
      ((submitSpeaking envEx stDup 2 0 1 "hello planet" none).1.users 2).total_points
        = (stDup.users 2).total_points + 8 ∧
      (((submitSpeaking envEx stDup 2 0 1 "hello planet" none).1).streaks 2 0).isSome
        = true) ∧
    ((submitSpeakingAudio envEx stDup 2 0 1 "hello planet" none).1.completions.length
        = stDup.completions.length + 1 ∧
      ((submitSpeakingAudio envEx stDup 2 0 1 "hello planet" none).1.users 2).total_points
        = (stDup.users 2).total_points + 8 ∧
      (((submitSpeakingAudio envEx stDup 2 0 1 "hello planet" none).1).streaks 2 0).isSome
        = true) ∧
    ((submitListening envEx stDup 2 0 1 "hi" none).1.completions.length
        = stDup.completions.length + 1 ∧
      ((submitListening envEx stDup 2 0 1 "hi" none).1.users 2).total_points
        = (stDup.users 2).total_points + 8 ∧
      (((submitListening envEx stDup 2 0 1 "hi" none).1).streaks 2 0).isSome
        = true) ∧
    ((submitObservation envEx stDup 2 0 1 "well yes indeed" none).1.completions.length
        = stDup.completions.length + 1 ∧
      ((submitObservation envEx stDup 2 0 1 "well yes indeed" none).1.users 2).total_points
        = (stDup.users 2).total_points + 10 ∧
      (((submitObservation envEx stDup 2 0 1 "well yes indeed" none).1).streaks 2 0).isSome
        = true) ∧
    ((submitWriting stDup 2 1 "nice quote indeed" none).1.completions.length
        = stDup.completions.length + 1 ∧
      ((submitWriting stDup 2 1 "nice quote indeed" none).1.users 2).total_points
        = (stDup.users 2).total_points + 8 ∧
      (submitWriting stDup 2 1 "nice quote indeed" none).1.streaks = stDup.streaks) ∧
    ((submitQuote envEx stDup 3 0 9).1.completions.length
        = stDup.completions.length + 1 ∧
      ((submitQuote envEx stDup 3 0 9).1.users 3).total_points
        = (stDup.users 3).total_points + 10 ∧
      (submitQuote envEx stDup 3 0 9).1.streaks = stDup.streaks) :=
  ⟨claim7_amended_mutations.1 envEx stDup 1 0 1 "hi" none .duplicate (by decide),
   claim7_amended_mutations.2.1 envEx stDup 1 0 1 "hi" none .duplicate (by decide),
   claim7_amended_mutations.2.2.1 envEx stDup 1 0 1 "hi" none .duplicate (by decide),
   claim7_amended_mutations.2.2.2.1 envEx stDup 1 0 1 "hi" none .duplicate (by decide),
   claim7_amended_mutations.2.2.2.2.1 stDup 1 1 "hi" none .duplicate (by decide),
   claim7_amended_mutations.2.2.2.2.2.1 envEx stDup 2 0 9 .alreadyPostedToday (by decide),
   claim7_amended_mutations.2.2.2.2.2.2.1 envEx stDup 2 0 1 "hello planet" none
     (50, 8) submitSpeaking_run_snd,
   claim7_amended_mutations.2.2.2.2.2.2.2.1 envEx stDup 2 0 1 "hello planet" none
     (50, 8) submitSpeakingAudio_run_snd,
   claim7_amended_mutations.2.2.2.2.2.2.2.2.1 envEx stDup 2 0 1 "hi" none
     (60, 8) (by decide),
   claim7_amended_mutations.2.2.2.2.2.2.2.2.2.1 envEx stDup 2 0 1 "well yes indeed" none
     (100, 10) (by decide),
   claim7_amended_mutations.2.2.2.2.2.2.2.2.2.2.1 stDup 2 1 "nice quote indeed" none
     (6, 8) (by rw [submitWriting_concrete_run]),
   claim7_amended_mutations.2.2.2.2.2.2.2.2.2.2.2 envEx stDup 3 0 9 10 (by decide)⟩

/-! ## C10 — the daily-quote shortcut -/

/-- C10: a successful quote post records a `writing` completion with
content reference 0 and score 100; the points are 15 exactly when the
poster is the first of their department today and 10 otherwise; the
points are added to `total_points`; no streak row and no
current/best-streak field is touched; afterwards the user has a `writing`
completion, so a user already holding speaking, listening and observation
completions becomes certificate-ready without any graded writing
submission. -/
theorem claim10_quote_writing_completion :
    ∀ (env : Env) (st : St) (uid : Nat) (today : Int) (n : Nat) (p : Nat),
      (submitQuote env st uid today n).2 = .ok p →
      (p = if (st.quotes.filter (fun q =>
          env.dept q.posted_by == env.dept uid && q.post_date == today)).length == 0
        then 15 else 10) ∧
      (submitQuote env st uid today n).1.completions
          = ⟨uid, "writing", 0, 100, p⟩ :: st.completions ∧
      ((submitQuote env st uid today n).1.users uid).total_points
          = (st.users uid).total_points + p ∧
      (submitQuote env st uid today n).1.streaks = st.streaks ∧
      ((submitQuote env st uid today n).1.users uid).current_streak
          = (st.users uid).current_streak ∧
      ((submitQuote env st uid today n).1.users uid).best_streak
          = (st.users uid).best_streak ∧
      hasCompletion (submitQuote env st uid today n).1 uid "writing" 0 = true ∧
      ((∀ m ∈ (["speaking", "listening", "observation"] : List String),
          ∃ r ∈ st.completions, r.user_id = uid ∧ r.module_type = m) →
        is_certificate_ready (submitQuote env st uid today n).1 uid = true) := by
  intro env st uid today n p
  unfold submitQuote
  split
  · intro h; simp at h
  intro h
  dsimp only [] at h ⊢
  injection h with h2
  subst h2
  refine ⟨rfl, ?_, ?_, rfl, ?_, ?_, ?_, ?_⟩
  · rw [addPoints_completions, addCompletion_completions]
  · rw [addPoints_total_self]
    rfl
  · rw [addPoints_current]
    rfl
  · rw [addPoints_best]
    rfl
  · rw [hasCompletion, addPoints_completions, addCompletion_completions]
    simp
  · intro hmods
    rw [certReady_iff]
    simp only [addPoints_completions, addCompletion_completions]
    intro m hm
    simp only [List.mem_cons, List.not_mem_nil, or_false] at hm
    rcases hm with rfl | rfl | rfl | rfl
    · obtain ⟨r0, hr0, hu, hmod⟩ := hmods "speaking" (by simp)
      exact ⟨r0, List.mem_cons_of_mem _ hr0, hu, hmod⟩
    · obtain ⟨r0, hr0, hu, hmod⟩ := hmods "listening" (by simp)
      exact ⟨r0, List.mem_cons_of_mem _ hr0, hu, hmod⟩
    · exact ⟨_, List.mem_cons_self _ _, rfl, rfl⟩
    · obtain ⟨r0, hr0, hu, hmod⟩ := hmods "observation" (by simp)
      exact ⟨r0, List.mem_cons_of_mem _ hr0, hu, hmod⟩

/-- Store in which user 1 holds speaking, listening and observation
completions but no writing completion. -/
def stThree : St where
  users := fun _ => ⟨0, 0, 0⟩
  completions := [⟨1, "speaking", 1, 50, 8⟩, ⟨1, "listening", 1, 60, 8⟩,
                  ⟨1, "observation", 1, 70, 8⟩]
  streaks := fun _ _ => none
  quotes := []

/-- Witness for C10: user 1's first quote post of the day (first of the
department) on `stThree` earns 15 points, records the (writing, 0, 100)
completion, leaves the streak store untouched and unlocks the
certificate. -/
theorem claim10_quote_writing_completion_witness :
    (submitQuote envEx stThree 1 0 1).1.completions
        = ⟨1, "writing", 0, 100, 15⟩ :: stThree.completions ∧
    ((submitQuote envEx stThree 1 0 1).1.users 1).total_points
        = (stThree.users 1).total_points + 15 ∧
    (submitQuote envEx stThree 1 0 1).1.streaks = stThree.streaks ∧
    hasCompletion (submitQuote envEx stThree 1 0 1).1 1 "writing" 0 = true ∧
    is_certificate_ready (submitQuote envEx stThree 1 0 1).1 1 = true := by
  have h := claim10_quote_writing_completion envEx stThree 1 0 1 15 (by decide)
  exact ⟨h.2.1, h.2.2.1, h.2.2.2.1, h.2.2.2.2.2.2.1,
    h.2.2.2.2.2.2.2 (by decide)⟩
